import Mathlib

/-!
# Verification of the TRK streamlines codec (`nibabel/streamlines/trk.py`)

Shallow embedding of the TRK (TrackVis) file-format codec: the fixed-size
header decoder with version dispatch and endianness detection
(`TrkReader.__init__`), the variable-length record-stream reader
(`TrkReader.__iter__`), the record writer with its post-pass consistency
checks and header patch (`TrkWriter.write`), and format sniffing
(`TrkFile.is_correct_format`).

Modelling conventions:
* Bytes are `Nat` values `< 256`; on-disk multi-byte integers are decoded
  little-endian ("native" order on the reference platform) or byte-swapped.
* The record stream after the header consists solely of 4-byte units
  (`int32` counts, `float32` coordinates/scalars/properties), so it is
  modelled as a list of 4-byte `Cell`s plus a count `trailing < 4` of
  leftover bytes that cannot form a full unit.  A cell records whether it
  was produced as an `int32` or a `float32` value; reading a cell with the
  wrong interpretation (impossible on the streams considered here) is the
  explicit model error `typeConfusion`.
* `float32` payloads are modelled as exact rationals; every concrete value
  appearing in the claims is exactly representable in `float32`, and the
  coordinate transforms (multiply/divide by voxel size, add/subtract half a
  voxel size) are exact on them.
* Python exceptions are modelled by `TrkError`: `headerError` is nibabel's
  `HeaderError`, `dataError` its `DataError`, `structError` is
  `struct.error` (short buffer passed to `struct.unpack`), `bufferTooSmall`
  the `TypeError` numpy raises when `np.ndarray` gets a too-small buffer,
  `valueError` is Python's `ValueError` (short `np.fromstring`, impossible
  reshape, broadcasting failure, negative seek), `keyError` a dictionary
  `KeyError`, `zeroDivisionError` Python's `ZeroDivisionError`.  The
  constructor `truncatedDataError` stands for the TRK-specific truncation
  error the specification names; no code in the repository defines or
  raises it.
-/

/-- A 4-byte unit of the record stream: an `int32` value or a `float32`
value (the latter modelled as an exact rational). -/
inductive Cell where
  | i4 (v : Int)
  | f4 (v : ℚ)
deriving DecidableEq, Repr

/-- Model of the Python exceptions that the codec can raise (see the
module docstring for the correspondence). -/
inductive TrkError where
  | headerError
  | dataError
  | structError
  | bufferTooSmall
  | valueError
  | keyError
  | zeroDivisionError
  | truncatedDataError
  | typeConfusion
  | outOfFuel
deriving DecidableEq, Repr

instance [DecidableEq ε] [DecidableEq α] : DecidableEq (Except ε α) := fun a b =>
  match a, b with
  | .ok x, .ok y => if h : x = y then .isTrue (by rw [h]) else .isFalse (by simp [h])
  | .error x, .error y => if h : x = y then .isTrue (by rw [h]) else .isFalse (by simp [h])
  | .ok _, .error _ => .isFalse (by simp)
  | .error _, .ok _ => .isFalse (by simp)

/-- A point in 3-space (voxel-index or voxel-millimetre units). -/
abbrev Pt := ℚ × ℚ × ℚ

/-- One decoded streamline record as yielded by `TrkReader.__iter__`:
points, per-point scalar rows, per-streamline properties. -/
structure Triple where
  pts : List Pt
  scalars : List (List ℚ)
  props : List ℚ
deriving DecidableEq, Repr

/-- Reader-side header state: the fields of `TrkReader.header` that drive
`__iter__` (per-point scalar count, per-streamline property count, voxel
sizes, declared streamline count).  The two counts are on disk `int16`
values; only non-negative values occur in the claims, so they are carried
as `Nat`. -/
structure RHeader where
  nbScalarsPerPoint : Nat
  nbPropertiesPerStreamline : Nat
  voxelSizes : ℚ × ℚ × ℚ
  nbStreamlines : Int
deriving DecidableEq, Repr

/-- Interpret a cell as an `int32` (the `struct.unpack` of the point-count
field). -/
def Cell.asI4 : Cell → Option Int
  | .i4 v => some v
  | .f4 _ => none

/-- Interpret a cell as a `float32`. -/
def Cell.asF4 : Cell → Option ℚ
  | .i4 _ => none
  | .f4 v => some v

/-- Interpret a whole block of cells as `float32` values. -/
def cellsF4 : List Cell → Option (List ℚ)
  | [] => some []
  | c :: cs =>
    match c.asF4, cellsF4 cs with
    | some q, some qs => some (q :: qs)
    | _, _ => none

/-- Split a list into `n` consecutive chunks of width `w` (the reshape of
the dense `(nb_pts, 3+S)` float block into rows). -/
def chunkl (w : Nat) : Nat → List α → List (List α)
  | 0, _ => []
  | n + 1, l => l.take w :: chunkl w n (l.drop w)

/-- First three entries of a row, as a point (rows handed to it always
have length `≥ 3`). -/
def ptOf (l : List ℚ) : Pt := (l.getD 0 0, l.getD 1 0, l.getD 2 0)

/-- The reader's coordinate transform (trk.py lines 192-198): divide by
the voxel sizes, then subtract *half the voxel size* per axis. -/
def readPtTransform (vs : ℚ × ℚ × ℚ) (p : Pt) : Pt :=
  (p.1 / vs.1 - vs.1 / 2, p.2.1 / vs.2.1 - vs.2.1 / 2, p.2.2 / vs.2.2 - vs.2.2 / 2)

/-- Decrement the loop bound: `none` models `np.inf` (header count 0). -/
def decBound : Option Nat → Option Nat
  | none => none
  | some n => some (n - 1)

/-- The record-reading loop of `TrkReader.__iter__` (trk.py lines
177-201).  `bound` is the declared streamline count (`none` when the
header declared 0, i.e. loop to end of input); `cells`/`trailing` are the
remaining stream contents.  Returns the yielded triples and the unread
cells.  `fuel` only ensures structural termination: any `fuel >
cells.length` is enough, since every loop iteration consumes at least the
count cell. -/
def readLoop (S P : Nat) (vs : ℚ × ℚ × ℚ) :
    Nat → Option Nat → List Cell → Nat → Except TrkError (List Triple × List Cell)
  | 0, _, _, _ => .error .outOfFuel
  | _ + 1, some 0, cells, _ => .ok ([], cells)
  | fuel + 1, bound, cells, trailing =>
    match cells with
    | [] =>
      -- `f.read(4)` returned fewer than 4 bytes: empty → clean EOF break,
      -- nonzero-but-short → `struct.unpack` raises `struct.error`.
      if trailing = 0 then .ok ([], []) else .error .structError
    | c :: cs =>
      match c.asI4 with
      | none => .error .typeConfusion
      | some n =>
        if n < 0 then .error .valueError
        else
          let need := n.toNat * (3 + S)
          if cs.length < need then .error .bufferTooSmall
          else
            match cellsF4 (cs.take need) with
            | none => .error .typeConfusion
            | some qs =>
              let rows := chunkl (3 + S) n.toNat qs
              let pts := rows.map (fun row => readPtTransform vs (ptOf row))
              let scalars := if S > 0 then rows.map (List.drop 3) else []
              let cs2 := cs.drop need
              if P > 0 then
                if cs2.length < P then .error .valueError
                else
                  match cellsF4 (cs2.take P) with
                  | none => .error .typeConfusion
                  | some props =>
                    (readLoop S P vs fuel (decBound bound) (cs2.drop P) trailing).map
                      (fun r => (⟨pts, scalars, props⟩ :: r.1, r.2))
              else
                (readLoop S P vs fuel (decBound bound) cs2 trailing).map
                  (fun r => (⟨pts, scalars, []⟩ :: r.1, r.2))

/-- `TrkReader.__iter__` as a whole (trk.py lines 142-207): seek to
`offsetData`, run the loop, overwrite the header's streamline count with
the number of triples yielded (line 204), and perform the final
`f.seek(start_position, os.SEEK_CUR)` — a *relative* seek, so the final
cursor is `end-of-data + startPos` (line 207).  Returns the triples, the
updated header, and the final cursor position in bytes. -/
def iterTrk (h : RHeader) (offsetData : Nat) (cells : List Cell) (trailing : Nat)
    (startPos : Nat) : Except TrkError (List Triple × RHeader × Nat) :=
  let bound : Option Nat :=
    if h.nbStreamlines = 0 then none else some h.nbStreamlines.toNat
  (readLoop h.nbScalarsPerPoint h.nbPropertiesPerStreamline h.voxelSizes
      (cells.length + 1) bound cells trailing).map
    (fun r =>
      let endPos := offsetData + 4 * (cells.length - r.2.length)
      (r.1, { h with nbStreamlines := r.1.length }, endPos + startPos))

/-! ## Writer (`TrkWriter.write`, trk.py lines 256-304) -/

/-- One streamline record handed to `TrkWriter.write`: points, per-point
scalar rows, per-streamline properties. -/
structure WRec where
  pts : List Pt
  scalars : List (List ℚ)
  props : List ℚ
deriving DecidableEq, Repr

/-- Writer-side header state: the fields of the synthesized TRK header
that `write` patches at the end (trk.py lines 298-300). -/
structure WHeader where
  nbStreamlines : Int
  nbScalarsPerPoint : Int
  nbPropertiesPerStreamline : Int
  voxelSizes : ℚ × ℚ × ℚ
deriving DecidableEq, Repr

/-- The writer's coordinate transform (trk.py lines 268-274): multiply by
the voxel sizes, then add half the voxel size per axis. -/
def writePtTransform (vs : ℚ × ℚ × ℚ) (p : Pt) : Pt :=
  (p.1 * vs.1 + vs.1 / 2, p.2.1 * vs.2.1 + vs.2.1 / 2, p.2.2 * vs.2.2 + vs.2.2 / 2)

/-- Whether all rows of a scalar matrix have the same length (`np.array`
on a ragged nested list raises `ValueError`). -/
def uniformRows : List (List ℚ) → Bool
  | [] => true
  | r :: rs => rs.all (fun r2 => r2.length == r.length)

/-- Serialize one record body (trk.py lines 276-278): the `int32` point
count, then the row-major `[coordinates | scalars]` block, then the
properties. -/
def encodeWRec (vs : ℚ × ℚ × ℚ) (r : WRec) : List Cell :=
  .i4 r.pts.length ::
    ((r.pts.zip (r.scalars ++ List.replicate r.pts.length [])).flatMap
      (fun pr =>
        let q := writePtTransform vs pr.1
        [Cell.f4 q.1, Cell.f4 q.2.1, Cell.f4 q.2.2] ++ pr.2.map Cell.f4))
    ++ r.props.map Cell.f4

/-- Per-record phase of `TrkWriter.write` (trk.py lines 260-284): the
scalar-count check, the numpy conversions that can raise, the emit, and
the accumulation of totals (cells, points, scalar values, property
values). -/
def writeRecord (vs : ℚ × ℚ × ℚ) (r : WRec) :
    Except TrkError (List Cell × Nat × Nat × Nat) :=
  if r.scalars.length > 0 && r.scalars.length != r.pts.length then
    .error .dataError  -- "Missing scalars for some points!"
  else if !uniformRows r.scalars then
    .error .valueError  -- np.array on a ragged nested list
  else if r.pts.isEmpty then
    .error .valueError  -- reshape((0, -1)) / broadcasting with shape (0,)
  else
    .ok (encodeWRec vs r, r.pts.length,
         (r.scalars.map List.length).sum, r.props.length)

/-- Fold the per-record phase over the whole sequence, accumulating
emitted cells and totals (streamlines, points, scalar values, property
values).  On a record error the cells of the *previous* records have
already been written. -/
def writeRecords (vs : ℚ × ℚ × ℚ) :
    List WRec → (List Cell × Nat × Nat × Nat × Nat) →
    (List Cell × Nat × Nat × Nat × Nat) × Option TrkError
  | [], acc => (acc, none)
  | r :: rs, (data, sl, np, ns, nprop) =>
    match writeRecord vs r with
    | .error e => ((data, sl, np, ns, nprop), some e)
    | .ok (cells, p, s, pr) =>
      writeRecords vs rs (data ++ cells, sl + 1, np + p, ns + s, nprop + pr)

/-- Outcome of `TrkWriter.write`: the error if one was raised, the record
cells actually written before it, and the final header — `none` exactly
when the closing header rewrite (trk.py lines 302-304) never executed. -/
structure WOut where
  err : Option TrkError
  data : List Cell
  finalHeader : Option WHeader
deriving DecidableEq, Repr

/-- `TrkWriter.write` (trk.py lines 256-304).  After the record loop it
computes `nb_scalars / nb_points` and `nb_properties / nb_streamlines`
with Python true division (`ZeroDivisionError` on zero denominators, no
special case in this code), raises `DataError` when either ratio is not an
integer, and only then seeks back and rewrites the header. -/
def trkWrite (hdr : WHeader) (rs : List WRec) : WOut :=
  match writeRecords hdr.voxelSizes rs ([], 0, 0, 0, 0) with
  | (acc, some e) => ⟨some e, acc.1, none⟩
  | ((data, sl, np, ns, nprop), none) =>
    if np = 0 then ⟨some .zeroDivisionError, data, none⟩  -- line 288: ns / np
    else if sl = 0 then ⟨some .zeroDivisionError, data, none⟩  -- line 289
    else
      let sPerPt : ℚ := (ns : ℚ) / (np : ℚ)
      let pPerSl : ℚ := (nprop : ℚ) / (sl : ℚ)
      if sPerPt.den ≠ 1 then ⟨some .dataError, data, none⟩
      else if pPerSl.den ≠ 1 then ⟨some .dataError, data, none⟩
      else
        ⟨none, data,
         some { hdr with
                  nbStreamlines := sl,
                  nbScalarsPerPoint := sPerPt.num,
                  nbPropertiesPerStreamline := pPerSl.num }⟩

/-- Reader header corresponding to a written final header (the round-trip
reader is driven by the patched on-disk header). -/
def readerOf (h : WHeader) : RHeader :=
  { nbScalarsPerPoint := h.nbScalarsPerPoint.toNat,
    nbPropertiesPerStreamline := h.nbPropertiesPerStreamline.toNat,
    voxelSizes := h.voxelSizes,
    nbStreamlines := h.nbStreamlines }

/-- `TrkFile.save` followed by `TrkFile.load`, restricted to the yielded
points (the property the round-trip claim is about).  The data region
begins right after the 1000-byte header. -/
def saveThenLoadPts (hdr : WHeader) (rs : List WRec) :
    Except TrkError (List (List Pt)) :=
  let w := trkWrite hdr rs
  match w.err, w.finalHeader with
  | none, some h => (iterTrk (readerOf h) 1000 w.data 0 1000).map
      (fun r => r.1.map Triple.pts)
  | some e, _ => .error e
  | none, none => .error .headerError  -- unreachable

/-! ## Header codec (`TrkReader.__init__`, trk.py lines 103-140) -/

/-- Little-endian value of a byte list. -/
def leNat (bs : List Nat) : Nat := bs.foldr (fun b acc => b + 256 * acc) 0

/-- Two's-complement reinterpretation of a `w`-byte unsigned value. -/
def toSigned (w : Nat) (v : Nat) : Int :=
  if v < 2 ^ (8 * w - 1) then (v : Int) else (v : Int) - 2 ^ (8 * w)

/-- The `len`-byte slice of `b` starting at offset `off`. -/
def seg (b : List Nat) (off len : Nat) : List Nat := (b.drop off).take len

/-- Strip trailing zero bytes (numpy's `S`-dtype scalars drop trailing
nulls, so the `header[Field.VOXEL_ORDER] == b""` check sees the stripped
value). -/
def stripTZ (l : List Nat) : List Nat :=
  (l.reverse.dropWhile (fun b => b == 0)).reverse

/-- Little-endian bytes of a 16-bit value. -/
def i2le (v : Nat) : List Nat := [v % 256, v / 256 % 256]

/-- Little-endian bytes of a 32-bit value. -/
def i4le (v : Nat) : List Nat :=
  [v % 256, v / 256 % 256, v / 65536 % 256, v / 16777216 % 256]

/-- The decoded header dictionary (`TrkReader.header`).  Multi-byte
integer subfields are decoded values; `float32` subfields are kept as
their 32-bit patterns read in the effective byte order (two headers have
equal logical float values exactly when these patterns agree); byte-string
subfields are raw slices, untouched by byte swapping.  `toWorldSpace` is
`none` for the version-1 layout, which has no affine — the dictionary
simply has no such key. -/
structure HdrDict where
  magic : List Nat
  dims : List Int
  voxelSizes : List Nat
  origin : List Nat
  nScalars : Int
  scalarName : List Nat
  nProps : Int
  propertyName : List Nat
  toWorldSpace : Option (List Nat)
  reserved : List Nat
  voxelOrder : List Nat
  pad2 : List Nat
  imageOrientationPatient : List Nat
  pad1 : List Nat
  flags : List Nat
  nCount : Int
  version : Int
  hdrSize : Int
deriving DecidableEq, Repr

/-- Parse a 1000-byte header blob with the version-`v` layout
(`header_1_dtd` / `header_2_dtd`, trk.py lines 25-76), reading multi-byte
numerics byte-swapped when `sw` is true (`newbyteorder`, line 127).  The
two layouts differ only in the 440..947 region: version 2 has a 4×4
`float32` affine then 444 reserved bytes, version 1 has 508 reserved
bytes. -/
def parseHdr (v : Nat) (sw : Bool) (b : List Nat) : HdrDict :=
  let rd := fun (off w : Nat) =>
    if sw then leNat ((seg b off w).reverse) else leNat (seg b off w)
  let rdI := fun (off w : Nat) => toSigned w (rd off w)
  let words := fun (off k : Nat) => (List.range k).map (fun i => rd (off + 4 * i) 4)
  { magic := seg b 0 6
    dims := [rdI 6 2, rdI 8 2, rdI 10 2]
    voxelSizes := words 12 3
    origin := words 24 3
    nScalars := rdI 36 2
    scalarName := seg b 38 200
    nProps := rdI 238 2
    propertyName := seg b 240 200
    toWorldSpace := if v = 2 then some (words 440 16) else none
    reserved := if v = 2 then seg b 504 444 else seg b 440 508
    voxelOrder := stripTZ (seg b 948 4)
    pad2 := seg b 952 4
    imageOrientationPatient := words 956 6
    pad1 := seg b 980 2
    flags := seg b 982 6
    nCount := rdI 988 4
    version := rdI 992 4
    hdrSize := rdI 996 4 }

/-- The empty-voxel-order default (trk.py lines 131-137): an all-null
voxel-order field is replaced by `b"LPS"` (with a warning). -/
def fixVoxelOrder (h : HdrDict) : HdrDict :=
  if h.voxelOrder = [] then { h with voxelOrder := [76, 80, 83] } else h

/-- Header decoding in `TrkReader.__init__` (trk.py lines 108-137).
The version subfield is read *natively* from the raw bytes first (the
`np.fromstring` with `header_2_dtype` then `header_rec['version']`
checks, lines 109-116); only afterwards is the header-size field checked
against 1000 and, on mismatch, the record reinterpreted with swapped byte
order and rechecked (lines 121-129).  Returns the decoded dictionary and
whether the swapped order was selected. -/
def decodeTrkHeader (b : List Nat) : Except TrkError (HdrDict × Bool) :=
  let vNative := toSigned 4 (leNat (seg b 992 4))
  if vNative = 1 ∨ vNative = 2 then
    let h := parseHdr vNative.toNat false b
    if h.hdrSize = 1000 then .ok (fixVoxelOrder h, false)
    else
      let h2 := parseHdr vNative.toNat true b
      if h2.hdrSize = 1000 then .ok (fixVoxelOrder h2, true)
      else .error .headerError
  else .error .headerError

/-- The affine lookup in `TrkFile.load` (trk.py line 395):
`trk_reader.header[Field.to_world_space]` — a dictionary access that
raises `KeyError` when the decoded header has no such key (the version-1
layout). -/
def loadAffine (h : HdrDict) : Except TrkError (List Nat) :=
  match h.toWorldSpace with
  | some a => .ok a
  | none => .error .keyError

/-- `TrkFile.load` up to its affine resolution (`ref=None` path): decode
the header, then look up the embedded affine. -/
def trkLoadAffine (b : List Nat) : Except TrkError (List Nat) :=
  match decodeTrkHeader b with
  | .ok (h, _) => loadAffine h
  | .error e => .error e

/-- Reverse each `w`-byte group of a list (byte-swapping one multi-byte
numeric subfield array). -/
def swapGroups (w : Nat) (l : List Nat) : List Nat :=
  (chunkl w (l.length / w) l).map List.reverse |>.flatten

/-- Byte-swap every multi-byte numeric subfield of a version-2-layout
header blob, leaving byte-string subfields untouched — the bit-level
byte-swapped file of the endianness-symmetry claim. -/
def byteSwapHeader (b : List Nat) : List Nat :=
  seg b 0 6 ++ swapGroups 2 (seg b 6 6) ++ swapGroups 4 (seg b 12 12) ++
  swapGroups 4 (seg b 24 12) ++ swapGroups 2 (seg b 36 2) ++ seg b 38 200 ++
  swapGroups 2 (seg b 238 2) ++ seg b 240 200 ++ swapGroups 4 (seg b 440 64) ++
  seg b 504 444 ++ seg b 948 4 ++ seg b 952 4 ++ swapGroups 4 (seg b 956 24) ++
  seg b 980 2 ++ seg b 982 6 ++ swapGroups 4 (seg b 988 12)

/-- The common first 440 bytes of the example header blobs: magic
`b"TRACK"`, dimensions (2,3,4), voxel sizes (1.0,1.0,1.0) (the `float32`
pattern of 1.0 is 0x3F800000 = 1065353216), origin zero, zero scalar and
property counts and all-blank name tables. -/
def hdrPrefix : List Nat :=
  [84, 82, 65, 67, 75, 0] ++ i2le 2 ++ i2le 3 ++ i2le 4 ++
  i4le 1065353216 ++ i4le 1065353216 ++ i4le 1065353216 ++
  List.replicate 12 0 ++ i2le 0 ++ List.replicate 200 0 ++
  i2le 0 ++ List.replicate 200 0

/-- The common last 52 bytes: voxel order `b"LPS"`, blank padding and
orientation fields, streamline count 0, the given version, header size
1000. -/
def hdrSuffix (version : Nat) : List Nat :=
  [76, 80, 83, 0] ++ List.replicate 4 0 ++ List.replicate 24 0 ++
  List.replicate 2 0 ++ List.replicate 6 0 ++ i4le 0 ++ i4le version ++
  i4le 1000

/-- A valid native (little-endian) version-2 header blob, with an
identity affine (diagonal `float32` 1.0 patterns). -/
def exampleHdr2 : List Nat :=
  hdrPrefix ++
  (i4le 1065353216 ++ i4le 0 ++ i4le 0 ++ i4le 0 ++
   i4le 0 ++ i4le 1065353216 ++ i4le 0 ++ i4le 0 ++
   i4le 0 ++ i4le 0 ++ i4le 1065353216 ++ i4le 0 ++
   i4le 0 ++ i4le 0 ++ i4le 0 ++ i4le 1065353216) ++
  List.replicate 444 0 ++ hdrSuffix 2

/-- A valid native version-1 header blob: no affine, 508 reserved bytes
in its place. -/
def exampleHdr1 : List Nat :=
  hdrPrefix ++ List.replicate 508 0 ++ hdrSuffix 1

/-! ## Sniffing (`TrkFile.is_correct_format`, trk.py lines 341-359) -/

/-- The 5-byte magic constant `b"TRACK"` (`TrkFile.MAGIC_NUMBER`). -/
def trackMagic : List Nat := [84, 82, 65, 67, 75]

/-- `TrkFile.is_correct_format`: read 5 bytes from the current position,
seek back by 5 *relative to the position after the read*
(`f.seek(-5, os.SEEK_CUR)`), and compare with the magic constant.  When
fewer than 5 bytes were available the relative seek targets a negative
position and raises (`valueError`); otherwise it returns the comparison
result together with the resulting stream position. -/
def isCorrectFormat (bytes : List Nat) (pos : Nat) : Except TrkError (Bool × Nat) :=
  let got := (bytes.drop pos).take 5
  let newPos := pos + got.length
  if newPos < 5 then .error .valueError
  else .ok (decide (got = trackMagic), newPos - 5)

/-! ## Well-formed record streams -/

/-- An abstract well-formed streamline record on the wire: `rows` are the
per-point `[3 coordinates | S scalars]` rows, `props` the per-streamline
property values. -/
structure RawRec where
  rows : List (List ℚ)
  props : List ℚ
deriving DecidableEq, Repr

/-- Serialize one raw record: `int32` point count, the dense row-major
float block, then the properties. -/
def encodeRaw (r : RawRec) : List Cell :=
  .i4 r.rows.length :: (r.rows.flatten.map Cell.f4 ++ r.props.map Cell.f4)

/-- Serialize a whole record stream. -/
def encodeRaws (rs : List RawRec) : List Cell := (rs.map encodeRaw).flatten

/-- The triple the reader yields for a raw record, per the source: points
are the first three row entries put through the reader transform, the
scalar slice is taken only when `S > 0`, properties pass through. -/
def decodeRaw (S : Nat) (vs : ℚ × ℚ × ℚ) (r : RawRec) : Triple :=
  ⟨r.rows.map (fun row => readPtTransform vs (ptOf row)),
   if S > 0 then r.rows.map (List.drop 3) else [],
   r.props⟩

lemma cellsF4_map (qs : List ℚ) : cellsF4 (qs.map Cell.f4) = some qs := by
  induction qs with
  | nil => rfl
  | cons q qs ih => simp [cellsF4, Cell.asF4, ih]

lemma chunkl_flatten (w : Nat) (rows : List (List ℚ))
    (h : ∀ row ∈ rows, row.length = w) :
    chunkl w rows.length rows.flatten = rows := by
  induction rows with
  | nil => rfl
  | cons r rows ih =>
    have hr : r.length = w := h r (by simp)
    simp only [List.length_cons, List.flatten_cons, chunkl,
      List.take_left' hr, List.drop_left' hr]
    exact congrArg _ (ih (fun row hm => h row (by simp [hm])))

lemma length_flatten_uniform (w : Nat) (rows : List (List ℚ))
    (h : ∀ row ∈ rows, row.length = w) :
    rows.flatten.length = rows.length * w := by
  induction rows with
  | nil => simp
  | cons r rows ih =>
    have hr : r.length = w := h r (by simp)
    simp only [List.flatten_cons, List.length_append, List.length_cons, hr,
      ih (fun row hm => h row (by simp [hm]))]
    ring

/-- One step of the reading loop over a serialized well-formed record:
the record is consumed whole, its decoded triple is prepended, and the
loop continues on the rest with the bound decremented. -/
lemma readLoop_cons (S P : Nat) (vs : ℚ × ℚ × ℚ) (fuel : Nat)
    (bound : Option Nat) (r : RawRec) (rest : List Cell) (tr : Nat)
    (hrows : ∀ row ∈ r.rows, row.length = 3 + S) (hprops : r.props.length = P)
    (hb : bound ≠ some 0) :
    readLoop S P vs (fuel + 1) bound (encodeRaw r ++ rest) tr =
      (readLoop S P vs fuel (decBound bound) rest tr).map
        (fun p => (decodeRaw S vs r :: p.1, p.2)) := by
  have hA : (r.rows.flatten.map Cell.f4).length = r.rows.length * (3 + S) := by
    rw [List.length_map, length_flatten_uniform (3 + S) r.rows hrows]
  have hB : (r.props.map Cell.f4).length = P := by
    rw [List.length_map, hprops]
  have hbody :
      readLoop S P vs (fuel + 1) bound (encodeRaw r ++ rest) tr =
        (if (r.rows.length : Int) < 0 then Except.error TrkError.valueError
         else
          let need := (r.rows.length : Int).toNat * (3 + S)
          let cs := (r.rows.flatten.map Cell.f4 ++ r.props.map Cell.f4) ++ rest
          if cs.length < need then Except.error TrkError.bufferTooSmall
          else
            match cellsF4 (cs.take need) with
            | none => Except.error TrkError.typeConfusion
            | some qs =>
              let rows := chunkl (3 + S) (r.rows.length : Int).toNat qs
              let pts := rows.map (fun row => readPtTransform vs (ptOf row))
              let scalars := if S > 0 then rows.map (List.drop 3) else []
              let cs2 := cs.drop need
              if P > 0 then
                if cs2.length < P then Except.error TrkError.valueError
                else
                  match cellsF4 (cs2.take P) with
                  | none => Except.error TrkError.typeConfusion
                  | some props =>
                    (readLoop S P vs fuel (decBound bound) (cs2.drop P) tr).map
                      (fun p => (⟨pts, scalars, props⟩ :: p.1, p.2))
              else
                (readLoop S P vs fuel (decBound bound) cs2 tr).map
                  (fun p => (⟨pts, scalars, []⟩ :: p.1, p.2))) := by
    match bound, hb with
    | none, _ => simp only [readLoop, encodeRaw, List.cons_append, Cell.asI4, decBound]
    | some (k + 1), _ => simp only [readLoop, encodeRaw, List.cons_append, Cell.asI4, decBound]
  rw [hbody]
  have hneg : ¬ ((r.rows.length : Int) < 0) :=
    Int.not_lt.mpr (Int.natCast_nonneg _)
  rw [if_neg hneg, List.append_assoc]
  simp only [Int.toNat_natCast]
  have hnotlt :
      ¬ ((r.rows.flatten.map Cell.f4 ++ (r.props.map Cell.f4 ++ rest)).length
          < r.rows.length * (3 + S)) := by
    simp only [List.length_append, hA, hB]
    omega
  rw [if_neg hnotlt, List.take_left' hA, List.drop_left' hA, cellsF4_map]
  simp only [chunkl_flatten (3 + S) r.rows hrows]
  rcases Nat.eq_zero_or_pos P with hP | hP
  · subst hP
    have hpnil : r.props = [] := List.eq_nil_of_length_eq_zero hprops
    simp [hpnil, decodeRaw]
  · rw [if_pos hP]
    have hlen2 : (r.props.map Cell.f4 ++ rest).length = P + rest.length := by
      simp [hB]
    rw [hlen2, if_neg (by omega), List.take_left' hB, cellsF4_map,
      List.drop_left' hB]
    rfl

/-- Draining a serialized well-formed record stream with no declared
bound (header count 0) and no trailing bytes succeeds, yields one triple
per record, and consumes everything. -/
lemma readLoop_encodeRaws (S P : Nat) (vs : ℚ × ℚ × ℚ) (rs : List RawRec)
    (fuel : Nat) (hwf : ∀ r ∈ rs, (∀ row ∈ r.rows, row.length = 3 + S) ∧ r.props.length = P)
    (hfuel : (encodeRaws rs).length < fuel) :
    readLoop S P vs fuel none (encodeRaws rs) 0 =
      .ok (rs.map (decodeRaw S vs), []) := by
  induction rs generalizing fuel with
  | nil =>
    obtain ⟨f, rfl⟩ : ∃ f, fuel = f + 1 :=
      ⟨fuel - 1, by omega⟩
    simp [encodeRaws, readLoop]
  | cons r rs ih =>
    obtain ⟨f, rfl⟩ : ∃ f, fuel = f + 1 :=
      ⟨fuel - 1, by omega⟩
    have henc : encodeRaws (r :: rs) = encodeRaw r ++ encodeRaws rs := by
      simp [encodeRaws]
    have hpos : 0 < (encodeRaw r).length := by simp [encodeRaw]
    have hfl : (encodeRaws rs).length < f := by
      rw [henc, List.length_append] at hfuel
      omega
    have hih := ih f (fun x hx => hwf x (List.mem_cons_of_mem r hx)) hfl
    rw [henc,
      readLoop_cons S P vs f none r (encodeRaws rs) 0
        (hwf r (by simp)).1 (hwf r (by simp)).2 (by simp)]
    simp only [decBound, hih, Except.map, List.map_cons]

/-! ## Claim theorems -/

/-- The header and streamline set of the round-trip claim's concrete
scenario: voxel sizes (2,2,2), one streamline with points
(0,0,0),(2,2,2), no scalars, no properties. -/
def hdrC1 : WHeader := ⟨0, 0, 0, (2, 2, 2)⟩

/-- The single-streamline input of the concrete round-trip scenario. -/
def rsC1 : List WRec := [⟨[(0, 0, 0), (2, 2, 2)], [], []⟩]

/-- Claim C1 (code bug): with voxel sizes (2,2,2), saving the streamline
[(0,0,0),(2,2,2)] emits point count 2 followed by the voxel-millimetre
points (1,1,1),(5,5,5) exactly as the claim states — but loading that
file back yields (−1/2,−1/2,−1/2),(3/2,3/2,3/2), not the original
points: the reader subtracts `voxel_size/2` *after* dividing by the voxel
size (trk.py line 198), which does not invert the writer's
multiply-then-add-`voxel_size/2` (lines 269-274) unless the voxel size is
1.  The save/load round trip is not the identity. -/
theorem c1_roundTrip_bug :
    (trkWrite hdrC1 rsC1).data =
      [.i4 2, .f4 1, .f4 1, .f4 1, .f4 5, .f4 5, .f4 5] ∧
    saveThenLoadPts hdrC1 rsC1 =
      .ok [[(-(1 : ℚ)/2, -(1 : ℚ)/2, -(1 : ℚ)/2), ((3 : ℚ)/2, 3/2, 3/2)]] ∧
    ([[(-(1 : ℚ)/2, -(1 : ℚ)/2, -(1 : ℚ)/2), ((3 : ℚ)/2, 3/2, 3/2)]] : List (List Pt)) ≠
      [[(0, 0, 0), (2, 2, 2)]] := by
  with_unfolding_all decide

set_option maxRecDepth 40000 in
/-- Claim C2 (code bug): a valid native version-2 header blob decodes,
but the bit-level byte-swapped blob fails with a header error instead of
decoding to the same logical values: `TrkReader.__init__` checks the
version subfield with *native* byte order (trk.py lines 111-116) before
the header-size/endianness detection (lines 121-129), and a byte-swapped
version field reads as 33554432 ∉ {1,2}. -/
theorem c2_endianness_bug :
    (decodeTrkHeader exampleHdr2).isOk = true ∧
    decodeTrkHeader (byteSwapHeader exampleHdr2) = .error .headerError := by
  decide

set_option maxRecDepth 40000 in
/-- Claim C3 (code bug): a version-1-shaped header blob does decode
successfully via the version-1 layout re-parse, and its decoded
dictionary has no voxel-to-world entry — but `TrkFile.load` then
evaluates `trk_reader.header[Field.to_world_space]` unconditionally
(trk.py line 395), which raises `KeyError` instead of resolving the
absent affine to the identity. -/
theorem c3_v1_affine_bug :
    (decodeTrkHeader exampleHdr1).isOk = true ∧
    (decodeTrkHeader exampleHdr1).toOption.map
        (fun p => (p.1.version, p.1.toWorldSpace)) = some (1, none) ∧
    trkLoadAffine exampleHdr1 = .error .keyError := by
  decide

/-- Claim C4 counterexample: a 2-byte (nonzero but short) read of the
point-count field raises `struct.error`, and a record whose declared
point count needs more data than remains raises numpy's buffer-too-small
`TypeError` — neither is the `TruncatedDataError` the claim names, and no
such error type exists in the repository. -/
theorem c4_counterexample :
    readLoop 0 0 (1, 1, 1) 1 none [] 2 = .error .structError ∧
    readLoop 0 0 (1, 1, 1) 2 none [.i4 2, .f4 1, .f4 1, .f4 1] 0 =
      .error .bufferTooSmall ∧
    (Except.error .structError : Except TrkError (List Triple × List Cell)) ≠
      .error .truncatedDataError ∧
    (Except.error .bufferTooSmall : Except TrkError (List Triple × List Cell)) ≠
      .error .truncatedDataError := by
  with_unfolding_all decide

/-- Claim C4 amended: a read of the point-count field that returns some
bytes but fewer than 4 raises an error (`struct.error`) rather than being
treated as a clean end-of-stream (only a zero-byte read is), and a record
whose declared point count requires more data bytes than remain raises an
error (numpy's buffer-too-small `TypeError`) rather than yielding
silently truncated data. -/
theorem trk_truncation_errors (S P : Nat) (vs : ℚ × ℚ × ℚ) (fuel tr : Nat)
    (bound : Option Nat) (n : Int) (cs : List Cell)
    (htr : tr ≠ 0) (hb : bound ≠ some 0) (hn : 0 ≤ n)
    (hshort : cs.length < n.toNat * (3 + S)) :
    readLoop S P vs (fuel + 1) bound [] tr = .error .structError ∧
    readLoop S P vs (fuel + 1) bound (.i4 n :: cs) tr = .error .bufferTooSmall := by
  constructor
  · match bound, hb with
    | none, _ => simp [readLoop, htr]
    | some (k + 1), _ => simp [readLoop, htr]
  · match bound, hb with
    | none, _ => simp [readLoop, Cell.asI4, Int.not_lt.mpr hn, hshort]
    | some (k + 1), _ => simp [readLoop, Cell.asI4, Int.not_lt.mpr hn, hshort]

/-- Witness for `trk_truncation_errors` at trailing = 2, a declared count
of 2 points and an empty remainder. -/
theorem trk_truncation_errors_witness :
    ((2 : Nat) ≠ 0 ∧ (none : Option Nat) ≠ some 0 ∧ (0 : Int) ≤ 2 ∧
      ([] : List Cell).length < (2 : Int).toNat * (3 + 0)) ∧
    (readLoop 0 0 (1, 1, 1) (0 + 1) none [] 2 = .error .structError ∧
     readLoop 0 0 (1, 1, 1) (0 + 1) none [.i4 2] 2 = .error .bufferTooSmall) :=
  ⟨⟨by with_unfolding_all decide, by decide, by decide, by decide⟩,
   trk_truncation_errors 0 0 (1, 1, 1) 0 2 none 2 []
     (by with_unfolding_all decide) (by with_unfolding_all decide) (by with_unfolding_all decide) (by with_unfolding_all decide)⟩

/-- A record with 2 scalar values per point (used against C5). -/
def wvA : WRec := ⟨[(0, 0, 0), (1, 1, 1)], [[1, 2], [3, 4]], []⟩

/-- A record with 3 scalar values per point (used against C5). -/
def wvB : WRec := ⟨[(0, 0, 0), (1, 1, 1)], [[1, 2, 3], [4, 5, 6]], []⟩

/-- A record with 4 scalar values per point (used against C5). -/
def wvC : WRec := ⟨[(0, 0, 0), (1, 1, 1)], [[1, 2, 3, 4], [5, 6, 7, 8]], []⟩

/-- Claim C5 counterexample: the per-point scalar channel count *varies*
across these two records (2 per point, then 4 per point), yet
`TrkWriter.write` raises no error and writes the final header (with the
averaged count 3): the check only compares the totals ratio
`nb_scalars / nb_points` with an integer, so variation that averages to
an integer passes undetected. -/
theorem c5_counterexample :
    (wvA.scalars.map List.length = [2, 2] ∧ wvC.scalars.map List.length = [4, 4]) ∧
    (trkWrite ⟨0, 0, 0, (1, 1, 1)⟩ [wvA, wvC]).err = none ∧
    (trkWrite ⟨0, 0, 0, (1, 1, 1)⟩ [wvA, wvC]).finalHeader =
      some ⟨2, 3, 0, (1, 1, 1)⟩ := by
  with_unfolding_all decide

/-- Claim C5 amended: writing a sequence whose *total* scalar values do
not divide evenly by the total points (as with one record at 2 scalars
per point and another at 3, equal point counts), or whose total
properties do not divide evenly by the total streamlines, raises
`DataError`, and the error is raised before the final header is written
back over the placeholder (`finalHeader = none`). -/
theorem trk_write_nonuniform_dataError (hdr : WHeader) (rs : List WRec)
    (data : List Cell) (sl np ns npr : Nat)
    (hrec : writeRecords hdr.voxelSizes rs ([], 0, 0, 0, 0) = ((data, sl, np, ns, npr), none))
    (hnp : np ≠ 0) (hsl : sl ≠ 0)
    (hdiv : ((ns : ℚ) / (np : ℚ)).den ≠ 1 ∨
            (((ns : ℚ) / (np : ℚ)).den = 1 ∧ ((npr : ℚ) / (sl : ℚ)).den ≠ 1)) :
    trkWrite hdr rs = ⟨some .dataError, data, none⟩ := by
  unfold trkWrite
  rw [hrec]
  rcases hdiv with hd | ⟨hd1, hd2⟩
  · simp [hnp, hsl, hd]
  · simp [hnp, hsl, hd1, hd2]

/-- The record-stream cells emitted for the 2-then-3-scalars-per-point
sequence before its consistency failure. -/
def dataW53 : List Cell :=
  [.i4 2, .f4 (1/2), .f4 (1/2), .f4 (1/2), .f4 1, .f4 2,
   .f4 (3/2), .f4 (3/2), .f4 (3/2), .f4 3, .f4 4,
   .i4 2, .f4 (1/2), .f4 (1/2), .f4 (1/2), .f4 1, .f4 2, .f4 3,
   .f4 (3/2), .f4 (3/2), .f4 (3/2), .f4 4, .f4 5, .f4 6]

/-- Witness for `trk_write_nonuniform_dataError`: the claim's own 2
scalars/point vs 3 scalars/point sequence (totals 10 scalar values over 4
points) raises `DataError` with the header never patched. -/
theorem trk_write_nonuniform_dataError_witness :
    (writeRecords (1, 1, 1) [wvA, wvB] ([], 0, 0, 0, 0) =
        ((dataW53, 2, 4, 10, 0), none) ∧
      (4 : Nat) ≠ 0 ∧ (2 : Nat) ≠ 0 ∧ ((10 : ℚ) / (4 : ℚ)).den ≠ 1) ∧
    trkWrite ⟨0, 0, 0, (1, 1, 1)⟩ [wvA, wvB] = ⟨some .dataError, dataW53, none⟩ :=
  ⟨⟨by with_unfolding_all decide, by decide, by decide,
     by with_unfolding_all decide⟩,
   trk_write_nonuniform_dataError ⟨0, 0, 0, (1, 1, 1)⟩ [wvA, wvB] dataW53 2 4 10 0
     (by with_unfolding_all decide) (by with_unfolding_all decide) (by with_unfolding_all decide) (Or.inl (by with_unfolding_all decide))⟩

/-- Claim C6 (code bug): writing an *empty* record sequence does not
complete — `TrkWriter.write` computes `nb_scalars / nb_points` with both
totals 0 (trk.py line 288) and there is no special case, so Python raises
`ZeroDivisionError` before any consistency check or header rewrite. -/
theorem c6_empty_write_zeroDivision (hdr : WHeader) :
    trkWrite hdr [] = ⟨some .zeroDivisionError, [], none⟩ := rfl

/-- Claim C7 (code bug): iterating a reader over a stream whose cursor
started at byte 1000 (right after the header) ends with the cursor at
2016 — end-of-data (1016) *plus* the starting position — because the
restoring seek uses `os.SEEK_CUR` (relative) instead of an absolute seek
(trk.py line 207); the cursor is not restored to 1000. -/
theorem c7_cursor_bug :
    iterTrk ⟨0, 0, (1, 1, 1), 1⟩ 1000 [.i4 1, .f4 1, .f4 1, .f4 1] 0 1000 =
      .ok ([⟨[((1 : ℚ)/2, 1/2, 1/2)], [], []⟩], ⟨0, 0, (1, 1, 1), 1⟩, 2016) ∧
    (2016 : Nat) ≠ 1000 := by
  with_unfolding_all decide

/-- Claim C8 (confirmed): with a header declaring streamline count 0,
iterating over a stream of exactly K well-formed serialized records
yields exactly K triples (one decoded record each) and leaves the
reader's header streamline count equal to K. -/
theorem trk_discovered_count (S P : Nat) (vs : ℚ × ℚ × ℚ) (rs : List RawRec)
    (sp : Nat)
    (hwf : ∀ r ∈ rs, (∀ row ∈ r.rows, row.length = 3 + S) ∧ r.props.length = P) :
    iterTrk ⟨S, P, vs, 0⟩ 1000 (encodeRaws rs) 0 sp =
      .ok (rs.map (decodeRaw S vs), ⟨S, P, vs, (rs.length : Int)⟩,
           1000 + 4 * (encodeRaws rs).length + sp) ∧
    (rs.map (decodeRaw S vs)).length = rs.length := by
  have hmain := readLoop_encodeRaws S P vs rs ((encodeRaws rs).length + 1) hwf
    (by omega)
  refine ⟨?_, by simp⟩
  simp [iterTrk, hmain, Except.map]

/-- Witness for `trk_discovered_count`: K = 2 records with S = 1 scalar
per point and P = 1 property. -/
theorem trk_discovered_count_witness :
    ((∀ r ∈ ([⟨[[1, 2, 3, 9]], [7]⟩, ⟨[[4, 5, 6, 8]], [2]⟩] : List RawRec),
        (∀ row ∈ r.rows, row.length = 3 + 1) ∧ r.props.length = 1)) ∧
    (iterTrk ⟨1, 1, (1, 1, 1), 0⟩ 1000
        (encodeRaws [⟨[[1, 2, 3, 9]], [7]⟩, ⟨[[4, 5, 6, 8]], [2]⟩]) 0 0 =
      .ok (([⟨[[1, 2, 3, 9]], [7]⟩, ⟨[[4, 5, 6, 8]], [2]⟩] : List RawRec).map
             (decodeRaw 1 (1, 1, 1)),
           ⟨1, 1, (1, 1, 1),
            (([⟨[[1, 2, 3, 9]], [7]⟩, ⟨[[4, 5, 6, 8]], [2]⟩] : List RawRec).length : Int)⟩,
           1000 + 4 * (encodeRaws [⟨[[1, 2, 3, 9]], [7]⟩, ⟨[[4, 5, 6, 8]], [2]⟩]).length + 0) ∧
      (([⟨[[1, 2, 3, 9]], [7]⟩, ⟨[[4, 5, 6, 8]], [2]⟩] : List RawRec).map
          (decodeRaw 1 (1, 1, 1))).length =
        ([⟨[[1, 2, 3, 9]], [7]⟩, ⟨[[4, 5, 6, 8]], [2]⟩] : List RawRec).length) :=
  ⟨by with_unfolding_all decide,
   trk_discovered_count 1 1 (1, 1, 1)
     [⟨[[1, 2, 3, 9]], [7]⟩, ⟨[[4, 5, 6, 8]], [2]⟩] 0 (by with_unfolding_all decide)⟩

/-- Claim C9 counterexample: on an empty source, `is_correct_format` does
not return false with the position unchanged — the relative
`f.seek(-5, os.SEEK_CUR)` after a 0-byte read targets a negative
position and raises. -/
theorem c9_counterexample :
    isCorrectFormat [] 0 = .error .valueError ∧
    isCorrectFormat [] 0 ≠ .ok (false, 0) := by
  with_unfolding_all decide

/-- Claim C9 amended: whenever at least 5 bytes remain at the read
position, `is_correct_format` returns true exactly when the 5 leading
bytes equal the magic constant `b"TRACK"`, and the source position is
unchanged; on shorter sources it instead raises from the relative seek or
moves the position backwards. -/
theorem trk_sniff_ok (bytes : List Nat) (pos : Nat) (h : pos + 5 ≤ bytes.length) :
    isCorrectFormat bytes pos =
      .ok (decide ((bytes.drop pos).take 5 = trackMagic), pos) := by
  have hlen : ((bytes.drop pos).take 5).length = 5 := by
    simp only [List.length_take, List.length_drop]
    omega
  simp only [isCorrectFormat, hlen]
  rw [if_neg (by omega)]
  simp

/-- Witness for `trk_sniff_ok`: the magic bytes themselves sniff as true
with the position kept at 0. -/
theorem trk_sniff_ok_witness :
    ((0 : Nat) + 5 ≤ trackMagic.length) ∧
    isCorrectFormat trackMagic 0 = .ok (true, 0) :=
  ⟨by with_unfolding_all decide, (trk_sniff_ok trackMagic 0 (by with_unfolding_all decide)).trans (by with_unfolding_all decide)⟩

/-- Claim C10 (confirmed): whenever a full traversal of the reader
succeeds, the resulting header's streamline count equals the number of
triples actually yielded — regardless of the count the header declared
(trk.py line 204 executes unconditionally after the loop). -/
theorem trk_count_overwritten (h : RHeader) (off : Nat) (cells : List Cell)
    (tr sp : Nat) (ts : List Triple) (h2 : RHeader) (pos : Nat)
    (hok : iterTrk h off cells tr sp = .ok (ts, h2, pos)) :
    h2.nbStreamlines = ts.length := by
  simp only [iterTrk] at hok
  cases hr : readLoop h.nbScalarsPerPoint h.nbPropertiesPerStreamline h.voxelSizes
      (cells.length + 1)
      (if h.nbStreamlines = 0 then none else some h.nbStreamlines.toNat)
      cells tr with
  | error e =>
    rw [hr] at hok
    exact absurd hok (by simp [Except.map])
  | ok v =>
    rw [hr] at hok
    simp only [Except.map, Except.ok.injEq, Prod.mk.injEq] at hok
    obtain ⟨h1, h2eq, -⟩ := hok
    rw [← h2eq, ← h1]

/-- Witness for `trk_count_overwritten`: a header declaring 5 streamlines
over a stream holding only 2 records — the yielded count 2 silently
replaces the declared 5. -/
theorem trk_count_overwritten_witness :
    (⟨0, 0, (1, 1, 1), 2⟩ : RHeader).nbStreamlines =
      ([⟨[((1 : ℚ)/2, 1/2, 1/2)], [], []⟩,
        ⟨[((3 : ℚ)/2, 3/2, 3/2)], [], []⟩] : List Triple).length :=
  trk_count_overwritten ⟨0, 0, (1, 1, 1), 5⟩ 1000
    [.i4 1, .f4 1, .f4 1, .f4 1, .i4 1, .f4 2, .f4 2, .f4 2] 0 0
    [⟨[((1 : ℚ)/2, 1/2, 1/2)], [], []⟩, ⟨[((3 : ℚ)/2, 3/2, 3/2)], [], []⟩]
    ⟨0, 0, (1, 1, 1), 2⟩ 1032 (by with_unfolding_all decide)
